import Mathlib

/-!
# Verification of the CognitoCoreMk1 orchestration core

A shallow embedding, in Lean 4, of the tool-execution and dialogue
orchestration code of the CognitoCoreMk1 repository, together with
theorems settling the specification claims about it.

The embedding covers:

* `tools.py` — `SystemTools.run_command` (allow-list, subprocess timeout)
  and the `run_command` branch of `ToolManager.execute_tool`;
* `agent.py` — `CognitoCoreAgent._execute_tool` (the tool boundary) and
  `CognitoCoreAgent.process_input` (the model / tool round-trip loop and
  its exception handlers);
* the intent classifier described in the specification (absent from the
  source tree, modelled from the spec).

Python effects are made explicit: exceptions become `Except`, the child
process spawned by `subprocess.Popen` is tracked by `spawned` and
`childRunning` fields, and the behaviour of the external world (the
child process, the Gemini model backend) is an oracle parameter.
-/

/-! ## Python values and exceptions -/

/-- A fragment of Python values, large enough for the parameter
dictionaries the tools receive. -/
inductive PyVal where
  | vStr (s : String)
  | vBool (b : Bool)
  | vInt (n : Int)
deriving DecidableEq, Repr

/-- Python truthiness for `PyVal` (used by `if safe_mode and ...`). -/
def PyVal.truthy : PyVal → Bool
  | .vBool b => b
  | .vStr s => !s.isEmpty
  | .vInt n => n != 0

/-- A Python exception of class `Exception`; `TypeError` is kept apart
because `CognitoCoreAgent._execute_tool` catches it separately. -/
inductive PyExc where
  | typeError (msg : String)
  | other (msg : String)
deriving DecidableEq, Repr

/-- The message carried by an exception. -/
def PyExc.msg : PyExc → String
  | .typeError m => m
  | .other m => m

/-- A keyword-argument mapping (`Dict[str, Any]`), as an association list. -/
abbrev Args := List (String × PyVal)

/-- `dict.get(key)`: the first binding of `key`, if any. -/
def Args.get? (p : Args) (k : String) : Option PyVal :=
  (p.find? fun kv => kv.1 == k).map fun kv => kv.2

/-! ## `tools.py` — `SystemTools.run_command`

The embedding of `SystemTools.run_command` (tools.py lines 146-209).
The child process is an oracle `ProcBehavior`: how long the command
would run and what it would produce.  The `RunEffect` record carries,
besides the returned dictionary, whether `subprocess.Popen` was reached
(`spawned`) and whether the child is still alive when the function
returns (`childRunning`). -/

/-- The `status` field of the dictionary returned by `run_command`. -/
inductive Status where
  | success
  | denied
  | timeout
  | error
deriving DecidableEq, Repr

/-- The dictionary returned by `run_command`: keys `output`, `error`,
`status`, `code` (the `denied` branch returns no `code` key). -/
structure RunResult where
  output : String
  error : Option String
  status : Status
  code : Option Int
deriving DecidableEq, Repr

/-- Oracle for the spawned command: it runs for `duration` seconds and
then exits with the given streams and return code. -/
inductive ProcBehavior where
  | runs (duration : Nat) (stdout stderr : String) (returncode : Int)
deriving DecidableEq, Repr

/-- Result of `run_command` together with its process-level effects:
`spawned` records whether `subprocess.Popen` was invoked, and
`childRunning` whether the child process is still alive when
`run_command` returns to its caller. -/
structure RunEffect where
  result : RunResult
  spawned : Bool
  childRunning : Bool
deriving DecidableEq, Repr

/-- The timeout passed to `process.communicate(timeout=30)` in
tools.py line 185. -/
def TOOL_TIMEOUT : Nat := 30

/-- The `safe_commands` allow-list of tools.py lines 161-165. -/
def SystemTools.safe_commands : List String :=
  ["ls", "dir", "echo", "date", "time", "whoami",
   "pwd", "cd", "hostname", "ping", "python", "python3",
   "pip", "pip3", "type", "cat", "more"]

/-- Python `str.lower()`, implemented on the character list so that it
evaluates by plain kernel reduction. -/
def pyLower (s : String) : String :=
  ⟨s.toList.map Char.toLower⟩

/-- Helper for `pySplit`: walk the characters, accumulating the current
token (in reverse) and emitting it at each whitespace boundary. -/
def pySplitAux : List Char → List Char → List String
  | [], acc => if acc.isEmpty then [] else [⟨acc.reverse⟩]
  | c :: rest, acc =>
    if c.isWhitespace then
      if acc.isEmpty then pySplitAux rest []
      else ⟨acc.reverse⟩ :: pySplitAux rest []
    else pySplitAux rest (c :: acc)

/-- Python `str.split()` with no argument: split on whitespace,
discarding empty pieces. -/
def pySplit (s : String) : List String :=
  pySplitAux s.toList []

/-- `command.split()[0]`, when it exists (tools.py line 168). -/
def firstToken (s : String) : Option String :=
  (pySplit s).head?

/-- Embedding of `SystemTools.run_command` (tools.py lines 146-209).

* An empty command makes `command.split()[0]` raise `IndexError`,
  which the trailing `except Exception` turns into a `status=error`
  dictionary, before any process is spawned.
* In safe mode a first token whose lowercasing is outside
  `safe_commands` is rejected with `status=denied` before `Popen`.
* Otherwise the command is spawned.  `communicate(timeout=30)` raises
  `subprocess.TimeoutExpired` when the child runs longer than 30
  seconds; the handler returns `status=timeout` and performs no kill,
  so the child process is still running (`childRunning := true`). -/
def SystemTools.run_command (command : String) (safe_mode : Bool)
    (proc : ProcBehavior) : RunEffect :=
  match firstToken command with
  | none =>
      { result := { output := "", error := some "list index out of range",
                    status := .error, code := some (-1) },
        spawned := false, childRunning := false }
  | some tok =>
      let command_base := pyLower tok
      if safe_mode && !(SystemTools.safe_commands.contains command_base) then
        { result := { output := "Command " ++ command_base ++ " not allowed in safe mode",
                      error := some "Security restriction",
                      status := .denied, code := none },
          spawned := false, childRunning := false }
      else
        match proc with
        | .runs duration stdout stderr returncode =>
          if TOOL_TIMEOUT < duration then
            { result := { output := "", error := some "Command execution timed out",
                          status := .timeout, code := some (-1) },
              spawned := true, childRunning := true }
          else
            { result := { output := stdout,
                          error := if stderr.isEmpty then none else some stderr,
                          status := if returncode == 0 then .success else .error,
                          code := some returncode },
              spawned := true, childRunning := false }

/-- Embedding of the `run_command` branch of `ToolManager.execute_tool`
(tools.py lines 424-427): `command = params.get("command", "")` and
`safe_mode = params.get("safe_mode", True)` are read from the caller
supplied parameter mapping.  A non-string `command` value would make
`command.split()` raise `AttributeError`, caught by the surrounding
`except Exception` into an error result with no process spawned. -/
def ToolManager.execute_tool_run_command (params : Args)
    (proc : ProcBehavior) : RunEffect :=
  let safe_mode : Bool :=
    match params.get? "safe_mode" with
    | some v => v.truthy
    | none => true
  match params.get? "command" with
  | some (.vStr command) => SystemTools.run_command command safe_mode proc
  | none => SystemTools.run_command "" safe_mode proc
  | some _ =>
      { result := { output := "", error := some "AttributeError",
                    status := .error, code := none },
        spawned := false, childRunning := false }

/-! ## `agent.py` — the tool boundary and the orchestration loop

`CognitoCoreAgent._execute_tool` (agent.py lines 183-214) looks a tool
name up in `TOOL_FUNCTION_MAP`, calls the tool body, and converts every
outcome — unknown name, `TypeError`, any other exception — into a
`{"result": ...}` dictionary.  A tool body is a function that may raise,
so its type is `Args → Except PyExc String` (the `String` is already the
`str()` of the Python return value); `execute_tool` itself lives in
`Except PyExc` so that "never propagates an exception" is the statement
that it always returns `Except.ok`. -/

/-- A tool body from `TOOL_FUNCTION_MAP`: may raise. -/
abbrev ToolFun := Args → Except PyExc String

/-- The `TOOL_FUNCTION_MAP` dictionary, as an association list. -/
abbrev ToolMap := List (String × ToolFun)

/-- The `{"result": ...}` dictionary returned by `_execute_tool`. -/
structure ExecResult where
  result : String
deriving DecidableEq, Repr

/-- Message of the unknown-tool branch (agent.py line 197). -/
def unknown_tool_msg (name : String) : String :=
  "Error: Tool " ++ name ++ " is not available."

/-- Message of the `except TypeError` branch (agent.py line 211). -/
def invalid_args_msg (name msg : String) : String :=
  "Error: Invalid arguments provided for tool " ++ name ++ ". " ++ msg

/-- Message of the `except Exception` branch (agent.py line 214). -/
def tool_failed_msg (name msg : String) : String :=
  "Error: Failed to execute tool " ++ name ++ ". " ++ msg

/-- Embedding of `CognitoCoreAgent._execute_tool` (agent.py lines
183-214): unknown names return an error result; the tool body runs
under `except TypeError` and `except Exception` handlers, each of which
returns an error result instead of re-raising. -/
def CognitoCoreAgent.execute_tool (tool_map : ToolMap) (tool_name : String)
    (tool_args : Args) : Except PyExc ExecResult :=
  match tool_map.find? fun kv => kv.1 == tool_name with
  | none => .ok { result := unknown_tool_msg tool_name }
  | some kv =>
      match kv.2 tool_args with
      | .ok v => .ok { result := v }
      | .error (.typeError e) => .ok { result := invalid_args_msg tool_name e }
      | .error (.other e) => .ok { result := tool_failed_msg tool_name e }

/-! ### The chat model

The Gemini backend is abstracted as an oracle giving, for each
round-trip (each `chat.send_message` call), either a candidate content
(a list of parts) or one of the exceptional outcomes the code handles:
`BlockedPromptException`, `StopCandidateException` (with the partial
text that `e.response.text` yields, or `none` when that access itself
raises), or any other exception. -/

/-- One part of a Gemini `Content`. -/
inductive ChatPart where
  | text (s : String)
  | functionCall (name : String) (args : Args)
  | functionResponse (name : String) (response : String)
deriving DecidableEq, Repr

/-- A Gemini `Content`: a role and a list of parts. -/
structure Content where
  role : String
  parts : List ChatPart
deriving DecidableEq, Repr

/-- The backend outcome of one `chat.send_message` call. -/
inductive ModelResp where
  | reply (parts : List ChatPart)
  | blockedPrompt
  | stopCandidate (partialText : Option String)
  | failure (msg : String)
deriving DecidableEq, Repr

/-- The model backend oracle, indexed by round-trip number. -/
abbrev Model := Nat → ModelResp

/-- The exceptions `process_input` catches around the chat. -/
inductive ChatExc where
  | blocked
  | stopped (partialText : Option String)
  | failure (msg : String)
deriving DecidableEq, Repr

/-- One `chat.send_message` call: on success the library appends the
sent content and the model reply to `chat.history` and hands back the
reply parts; the exceptional outcomes raise. -/
def send_message (m : Model) (round : Nat) (hist : List Content)
    (msg : Content) : Except ChatExc (List ChatPart × List Content) :=
  match m round with
  | .reply parts => .ok (parts, hist ++ [msg, { role := "model", parts := parts }])
  | .blockedPrompt => .error .blocked
  | .stopCandidate p => .error (.stopped p)
  | .failure s => .error (.failure s)

/-- Whether a part is a text part. -/
def ChatPart.isText : ChatPart → Bool
  | .text _ => true
  | _ => false

/-- The `.text` accessor of a part: the text field, which is the empty
string for non-text parts (the proto default). -/
def ChatPart.textValue : ChatPart → String
  | .text s => s
  | _ => ""

/-- `response.text` (agent.py line 266): the concatenated text of the
candidate parts; raises (`none`) when there is no text content. -/
def response_text (parts : List ChatPart) : Option String :=
  if parts.isEmpty then none
  else if parts.all ChatPart.isText then
    some (String.join (parts.map ChatPart.textValue))
  else none

/-- The serialization of agent.py lines 272-275: every part is turned
into `{'text': part.text}`. -/
def serialize_content (c : Content) : Content :=
  { role := c.role, parts := c.parts.map fun p => ChatPart.text p.textValue }

/-- `serializable_history` (agent.py lines 272-275). -/
def serialize_history (h : List Content) : List Content :=
  h.map serialize_content

/-- The `while` loop of agent.py lines 248-263.  While the first part
of the current response is a function call, the tool is executed and
its result sent back to the model.  The loop carries no round bound in
the source; `fuel` is only the embedding's recursion budget, and a
`none` result means the loop has not exited within `fuel` rounds. -/
def tool_call_loop (m : Model) (tool_map : ToolMap) (fuel round : Nat)
    (parts : List ChatPart) (hist : List Content) :
    Option (Except ChatExc (List ChatPart × List Content)) :=
  match fuel with
  | 0 => none
  | fuel + 1 =>
    match parts with
    | .functionCall tool_name tool_args :: _ =>
      match CognitoCoreAgent.execute_tool tool_map tool_name tool_args with
      | .error e => some (.error (.failure e.msg))
      | .ok r =>
        match send_message m round hist
            { role := "user", parts := [.functionResponse tool_name r.result] } with
        | .error e => some (.error e)
        | .ok (parts2, hist2) => tool_call_loop m tool_map fuel (round + 1) parts2 hist2
    | _ => some (.ok (parts, hist))

/-- The fixed message of the `BlockedPromptException` handler
(agent.py line 281). -/
def safety_msg : String :=
  "I cannot process that request due to safety restrictions."

/-- The fixed message of the `StopCandidateException` handler when no
usable partial text exists (agent.py lines 296-298). -/
def interrupted_msg : String :=
  "My response was interrupted. Could you please rephrase?"

/-- The fixed message of the final `except Exception` handler
(agent.py line 301). -/
def internal_error_msg : String :=
  "I encountered an internal error. Please try again later."

/-- The `except` handlers of `process_input` (agent.py lines 279-301),
selecting the returned message and history for each failure. -/
def handle_exc (e : ChatExc) (user_text : String) (hist : List Content) :
    String × List Content :=
  match e with
  | .blocked => (safety_msg, hist)
  | .stopped (some p) =>
      if p = "" then (interrupted_msg, hist)
      else (p, hist ++ [{ role := "user", parts := [.text user_text] },
                        { role := "model", parts := [.text p] }])
  | .stopped none => (interrupted_msg, hist)
  | .failure _ => (internal_error_msg, hist)

/-- Embedding of `CognitoCoreAgent.process_input` (agent.py lines
216-301): send the user message, run the tool-call loop, then either
serialize `chat.history` around the final text, fall into the generic
handler when `response.text` raises, or handle the backend exceptions.
A `none` result means the unbounded `while` loop has not exited within
the `fuel` recursion budget. -/
def CognitoCoreAgent.process_input (m : Model) (tool_map : ToolMap)
    (fuel : Nat) (user_text : String) (conversation_history : List Content) :
    Option (String × List Content) :=
  match send_message m 0 conversation_history
      { role := "user", parts := [.text user_text] } with
  | .error e => some (handle_exc e user_text conversation_history)
  | .ok (parts, hist) =>
    match tool_call_loop m tool_map fuel 1 parts hist with
    | none => none
    | some (.error e) => some (handle_exc e user_text conversation_history)
    | some (.ok (finalParts, finalHist)) =>
      match response_text finalParts with
      | some t => some (t, serialize_history finalHist)
      | none => some (internal_error_msg, conversation_history)

/-- `MAX_CONVERSATION_HISTORY` (config.py line 137, default 10),
documented as the number of past exchanges to remember. -/
def MAX_CONVERSATION_HISTORY : Nat := 10

/-- A history is text-only when every part of every content is a text
part (the shape of histories that round-trip through serialization). -/
def textOnly (h : List Content) : Bool :=
  h.all fun c => c.parts.all ChatPart.isText

/-! ## Intent classifier — modelled from the spec

No intent classifier exists in the source tree; the specification
describes it as a keyword-match heuristic with per-intent confidence
thresholds.  The definitions below are therefore modelled from the
spec's words rather than translated from source code. -/

/-- Modelled from the spec: the intent enumeration of the classifier
contract, `web_search, system_command, send_email, general_question,
unknown`. -/
inductive Intent where
  | web_search
  | system_command
  | send_email
  | general_question
  | unknown
deriving DecidableEq, Repr

/-- Whether `needle` occurs as a contiguous run inside `haystack`. -/
def isInfixList (needle : List Char) : List Char → Bool
  | [] => needle.isEmpty
  | c :: rest => needle.isPrefixOf (c :: rest) || isInfixList needle rest

/-- Modelled from the spec: a cheap keyword match — does the lowercased
utterance contain one of the keywords as a substring. -/
def containsKeyword (utterance : String) (keywords : List String) : Bool :=
  keywords.any fun k => isInfixList k.toList (pyLower utterance).toList

/-- Modelled from the spec: keywords routing toward the web-search
tool category. -/
def web_search_keywords : List String :=
  ["search", "look up", "google", "news"]

/-- Modelled from the spec: keywords routing toward the system-command
tool category. -/
def system_command_keywords : List String :=
  ["run command", "execute", "terminal", "shell", "system status"]

/-- Modelled from the spec: keywords routing toward the email tool
category. -/
def send_email_keywords : List String :=
  ["email", "mail", "send a message"]

/-- Modelled from the spec: the fixed per-intent threshold that a
web-search confidence must exceed before pre-fetching. -/
def WEB_SEARCH_THRESHOLD : ℚ := 3/5

/-- Modelled from the spec: the classifier contract
`classify(utterance) -> {intent: enum, confidence: 0..1}`.  A keyword
hit yields the matching intent with high confidence; an empty
utterance is `unknown`; everything else falls back to
`general_question`. -/
def classify (utterance : String) : Intent × ℚ :=
  if utterance.toList.all Char.isWhitespace then (.unknown, 0)
  else if containsKeyword utterance web_search_keywords then (.web_search, 9/10)
  else if containsKeyword utterance system_command_keywords then (.system_command, 17/20)
  else if containsKeyword utterance send_email_keywords then (.send_email, 17/20)
  else (.general_question, 1/2)

/-! ## Concrete fixtures used by witnesses and counterexamples -/

/-- A model stub that requests the same tool call on every round. -/
def alwaysToolStub : Model :=
  fun _ => .reply [.functionCall "run_command" []]

/-- A model stub whose every call is blocked by content policy. -/
def blockedStub : Model :=
  fun _ => .blockedPrompt

/-- A model stub that stops generation with a non-empty partial answer
available. -/
def partialStub : Model :=
  fun _ => .stopCandidate (some "Partial answer.")

/-- A model stub that replies with a plain final text and no tool
call. -/
def simpleStub : Model :=
  fun _ => .reply [.text "Sure."]

/-- A tool map with one tool whose body always raises. -/
def raisingToolMap : ToolMap :=
  [("boom", fun _ => .error (.other "kaboom"))]

/-- A ten-turn (five-exchange) text-only history, exactly the retained
length `MAX_CONVERSATION_HISTORY` defaults to. -/
def hist10 : List Content :=
  [{ role := "user", parts := [.text "q1"] }, { role := "model", parts := [.text "a1"] },
   { role := "user", parts := [.text "q2"] }, { role := "model", parts := [.text "a2"] },
   { role := "user", parts := [.text "q3"] }, { role := "model", parts := [.text "a3"] },
   { role := "user", parts := [.text "q4"] }, { role := "model", parts := [.text "a4"] },
   { role := "user", parts := [.text "q5"] }, { role := "model", parts := [.text "a5"] }]

/-- A parameter mapping that carries `safe_mode=False` alongside a
command whose first token is outside the allow-list. -/
def unsafeParams : Args :=
  [("command", .vStr "rm -rf /tmp/scratch"), ("safe_mode", .vBool false)]


/-- Whether some user turn of the history carries the given text. -/
def recordsUserText (h : List Content) (u : String) : Bool :=
  h.any fun c => c.role == "user" && c.parts.any fun p => p == ChatPart.text u

/-! ## Helper lemmas -/

/-- Joining a one-element list of strings is that string. -/
theorem join_singleton (t : String) : String.join [t] = t := rfl

/-- The tool boundary always returns `Except.ok`: every exception class
the embedding models is caught by one of its handlers. -/
theorem execute_tool_isOk (tool_map : ToolMap) (tool_name : String)
    (tool_args : Args) :
    ∃ r, CognitoCoreAgent.execute_tool tool_map tool_name tool_args = .ok r := by
  rcases hf : tool_map.find? fun kv => kv.1 == tool_name with _ | kv
  · exact ⟨⟨unknown_tool_msg tool_name⟩, by simp [CognitoCoreAgent.execute_tool, hf]⟩
  · rcases hb : kv.2 tool_args with e | v
    · cases e with
      | typeError msg =>
        exact ⟨⟨invalid_args_msg tool_name msg⟩,
          by simp [CognitoCoreAgent.execute_tool, hf, hb]⟩
      | other msg =>
        exact ⟨⟨tool_failed_msg tool_name msg⟩,
          by simp [CognitoCoreAgent.execute_tool, hf, hb]⟩
    · exact ⟨⟨v⟩, by simp [CognitoCoreAgent.execute_tool, hf, hb]⟩

/-- Mapping the serialization over text-only parts is the identity. -/
theorem serialize_parts_textOnly (ps : List ChatPart)
    (h : ps.all ChatPart.isText = true) :
    ps.map (fun p => ChatPart.text p.textValue) = ps := by
  induction ps with
  | nil => rfl
  | cons p ps ih =>
    simp only [List.all_cons, Bool.and_eq_true] at h
    simp only [List.map_cons, ih h.2, List.cons.injEq, and_true]
    cases p with
    | text s => rfl
    | functionCall n a => simp [ChatPart.isText] at h
    | functionResponse n r => simp [ChatPart.isText] at h

/-- Serializing a text-only content is the identity. -/
theorem serialize_content_textOnly (c : Content)
    (h : c.parts.all ChatPart.isText = true) : serialize_content c = c := by
  obtain ⟨role, parts⟩ := c
  simp only [serialize_content]
  simp [serialize_parts_textOnly parts h]

/-- Serializing a text-only history is the identity. -/
theorem serialize_history_textOnly (h : List Content)
    (hh : textOnly h = true) : serialize_history h = h := by
  induction h with
  | nil => rfl
  | cons c cs ih =>
    simp only [textOnly, List.all_cons, Bool.and_eq_true] at hh
    simp only [serialize_history, List.map_cons]
    rw [serialize_content_textOnly c hh.1]
    have h2 : textOnly cs = true := hh.2
    have := ih h2
    simpa [serialize_history] using this

/-- A submission whose first model reply is a plain text part runs no
tool round and returns that text with exactly the user and model turns
appended to the (text-only) history. -/
theorem process_input_no_tool_eq (m : Model) (tool_map : ToolMap)
    (fuel : Nat) (u t : String) (hist : List Content)
    (hm : m 0 = ModelResp.reply [ChatPart.text t])
    (hh : textOnly hist = true) :
    CognitoCoreAgent.process_input m tool_map (fuel + 1) u hist =
      some (t, hist ++ [{ role := "user", parts := [ChatPart.text u] },
                        { role := "model", parts := [ChatPart.text t] }]) := by
  unfold CognitoCoreAgent.process_input
  simp only [send_message, hm]
  simp only [tool_call_loop]
  simp only [response_text]
  simp only [List.isEmpty_cons, List.all_cons, List.all_nil, ChatPart.isText, Bool.and_true,
             List.map_cons, List.map_nil, ChatPart.textValue, join_singleton]
  have hs : serialize_history
      (hist ++ [{ role := "user", parts := [ChatPart.text u] },
                { role := "model", parts := [ChatPart.text t] }]) =
      hist ++ [{ role := "user", parts := [ChatPart.text u] },
               { role := "model", parts := [ChatPart.text t] }] := by
    have h1 := serialize_history_textOnly hist hh
    simp only [serialize_history, List.map_append] at h1 ⊢
    rw [h1]
    rfl
  simp [hs]

/-- Against the stub that requests the same tool call on every round,
the `while` loop of `process_input` never exits, whatever the recursion
budget: the source contains no round bound. -/
theorem always_tool_loop_none (tool_map : ToolMap) :
    ∀ fuel round hist,
      tool_call_loop alwaysToolStub tool_map fuel round
        [ChatPart.functionCall "run_command" []] hist = none := by
  intro fuel
  induction fuel with
  | zero => intro round hist; rfl
  | succ n ih =>
    intro round hist
    obtain ⟨r, hr⟩ := execute_tool_isOk tool_map "run_command" []
    simp only [tool_call_loop, hr, send_message, alwaysToolStub]
    exact ih (round + 1) _

/-! ## Claim theorems -/

/-- Claim C1: with safe mode enabled (the default), every command whose
first whitespace-separated token is outside the configured allow-list
(the check lowercases the token first, as the source does) is answered
with `status=denied`, and `subprocess.Popen` is never reached, whatever
the command would have done. -/
theorem run_command_safe_mode_denies (command : String) (proc : ProcBehavior)
    (tok : String) (h1 : firstToken command = some tok)
    (h2 : pyLower tok ∉ SystemTools.safe_commands) :
    (SystemTools.run_command command true proc).result.status = Status.denied ∧
    (SystemTools.run_command command true proc).spawned = false := by
  unfold SystemTools.run_command
  rw [h1]
  simp [h2]

/-- Claim C1, witness: `run_command "rm -rf /"` in safe mode is denied
and spawns no process. -/
theorem run_command_safe_mode_denies_witness :
    firstToken "rm -rf /" = some "rm" ∧
    pyLower "rm" ∉ SystemTools.safe_commands ∧
    (SystemTools.run_command "rm -rf /" true (.runs 1 "" "" 0)).result.status =
      Status.denied ∧
    (SystemTools.run_command "rm -rf /" true (.runs 1 "" "" 0)).spawned = false := by
  refine ⟨by decide, by decide, ?_⟩
  exact run_command_safe_mode_denies "rm -rf /" (.runs 1 "" "" 0) "rm" (by decide) (by decide)

/-- Claim C2: the tool-execution boundary always returns a result value
and never propagates an exception: it is `Except.ok` for every tool map,
name and argument mapping; an unknown name yields the unknown-tool error
result; a `TypeError` from the tool body yields the invalid-arguments
error result; any other exception yields the failed-tool error result. -/
theorem execute_tool_never_raises (tool_map : ToolMap) (tool_name : String)
    (tool_args : Args) :
    (CognitoCoreAgent.execute_tool tool_map tool_name tool_args).isOk = true ∧
    ((tool_map.find? fun kv => kv.1 == tool_name) = none →
      CognitoCoreAgent.execute_tool tool_map tool_name tool_args =
        .ok { result := unknown_tool_msg tool_name }) ∧
    (∀ kv msg, (tool_map.find? fun kv => kv.1 == tool_name) = some kv →
      kv.2 tool_args = .error (.typeError msg) →
      CognitoCoreAgent.execute_tool tool_map tool_name tool_args =
        .ok { result := invalid_args_msg tool_name msg }) ∧
    (∀ kv msg, (tool_map.find? fun kv => kv.1 == tool_name) = some kv →
      kv.2 tool_args = .error (.other msg) →
      CognitoCoreAgent.execute_tool tool_map tool_name tool_args =
        .ok { result := tool_failed_msg tool_name msg }) := by
  refine ⟨?_, ?_, ?_, ?_⟩
  · obtain ⟨r, hr⟩ := execute_tool_isOk tool_map tool_name tool_args
    rw [hr]
    rfl
  · intro hf
    simp [CognitoCoreAgent.execute_tool, hf]
  · intro kv msg hf hb
    simp [CognitoCoreAgent.execute_tool, hf, hb]
  · intro kv msg hf hb
    simp [CognitoCoreAgent.execute_tool, hf, hb]

/-- Claim C2, witness: an unknown tool name and a raising tool body both
come back as ordinary error results. -/
theorem execute_tool_never_raises_witness :
    (CognitoCoreAgent.execute_tool raisingToolMap "missing" []).isOk = true ∧
    CognitoCoreAgent.execute_tool raisingToolMap "missing" [] =
      .ok { result := unknown_tool_msg "missing" } ∧
    CognitoCoreAgent.execute_tool raisingToolMap "boom" [] =
      .ok { result := tool_failed_msg "boom" "kaboom" } := by
  refine ⟨(execute_tool_never_raises raisingToolMap "missing" []).1,
          (execute_tool_never_raises raisingToolMap "missing" []).2.1 rfl,
          (execute_tool_never_raises raisingToolMap "boom" []).2.2.2
            ("boom", fun _ => .error (.other "kaboom")) "kaboom" rfl rfl⟩

/-- Claim C3, counterexample: with a model stub that requests the same
tool call on every round, the loop of `process_input` has not
terminated after 20 round-trips — far beyond the maximum of 8 the
specification suggests — and no apology is ever synthesized: the claim
that a configured maximum round-trip count forces termination is false
of the source, which bounds nothing. -/
theorem loop_bound_counterexample :
    CognitoCoreAgent.process_input alwaysToolStub [] 20 "run the tool" [] = none := by
  rfl

/-- Claim C3, amended: the tool-call loop of `process_input` enforces no
round-trip bound at all; against a model stub that requests a tool call
on every round it never reaches a terminal answer, whatever recursion
budget it is given (a `none` result means the `while` loop is still
running when the budget runs out). -/
theorem tool_call_loop_unbounded (tool_map : ToolMap) (fuel : Nat)
    (u : String) (hist : List Content) :
    CognitoCoreAgent.process_input alwaysToolStub tool_map fuel u hist = none := by
  unfold CognitoCoreAgent.process_input
  simp only [send_message, alwaysToolStub]
  rw [always_tool_loop_none tool_map fuel 1]

/-- Claim C4: `ToolManager.execute_tool` reads `safe_mode` from the
caller-supplied parameter mapping, so `safe_mode=False` in the
parameters disables the allow-list entirely: the process is spawned and
the result is never `status=denied`, even for a command whose first
token is outside the allow-list. -/
theorem safe_mode_false_bypasses_allow_list (params : Args) (proc : ProcBehavior)
    (command tok : String)
    (hc : params.get? "command" = some (.vStr command))
    (hs : params.get? "safe_mode" = some (.vBool false))
    (ht : firstToken command = some tok)
    (_hout : pyLower tok ∉ SystemTools.safe_commands) :
    (ToolManager.execute_tool_run_command params proc).spawned = true ∧
    (ToolManager.execute_tool_run_command params proc).result.status ≠ Status.denied := by
  unfold ToolManager.execute_tool_run_command SystemTools.run_command
  simp only [hs, hc, PyVal.truthy, ht]
  cases proc with
  | runs d o e rc =>
    by_cases hd : TOOL_TIMEOUT < d
    · simp [hd]
    · simp only [hd, Bool.false_and, Bool.not_false, if_false]
      by_cases hrc : rc == 0 <;> simp [hrc]

/-- Claim C4, witness: `rm -rf /tmp/scratch` with `safe_mode=False` in
the parameters is executed, not denied. -/
theorem safe_mode_false_bypasses_allow_list_witness :
    unsafeParams.get? "command" = some (.vStr "rm -rf /tmp/scratch") ∧
    unsafeParams.get? "safe_mode" = some (.vBool false) ∧
    firstToken "rm -rf /tmp/scratch" = some "rm" ∧
    pyLower "rm" ∉ SystemTools.safe_commands ∧
    (ToolManager.execute_tool_run_command unsafeParams (.runs 1 "gone" "" 0)).spawned =
      true ∧
    (ToolManager.execute_tool_run_command unsafeParams
        (.runs 1 "gone" "" 0)).result.status ≠ Status.denied := by
  refine ⟨by decide, by decide, by decide, by decide, ?_⟩
  exact safe_mode_false_bypasses_allow_list unsafeParams (.runs 1 "gone" "" 0)
    "rm -rf /tmp/scratch" "rm" (by decide) (by decide) (by decide) (by decide)

/-- Claim C5, counterexample: a command that runs past the 30-second
timeout is answered with `status=timeout`, but the spawned child process
is still running when `run_command` returns — the `TimeoutExpired`
handler performs no kill, so the claim that the child is terminated is
false of the source. -/
theorem timeout_leaves_child_running_cex :
    (SystemTools.run_command "ping localhost" true (.runs 31 "" "" 0)).result.status =
      Status.timeout ∧
    (SystemTools.run_command "ping localhost" true (.runs 31 "" "" 0)).childRunning =
      true := by
  decide

/-- Claim C5, amended: whenever a spawned command runs longer than the
30-second default timeout, `run_command` returns `status=timeout`, but
the child process is not terminated: it is still running when
`run_command` returns, and may remain as an orphan. -/
theorem run_command_timeout_no_kill (command : String) (safe_mode : Bool)
    (tok : String) (d : Nat) (out err : String) (rc : Int)
    (h1 : firstToken command = some tok)
    (h2 : safe_mode = false ∨ pyLower tok ∈ SystemTools.safe_commands)
    (h3 : TOOL_TIMEOUT < d) :
    (SystemTools.run_command command safe_mode (.runs d out err rc)).result.status =
      Status.timeout ∧
    (SystemTools.run_command command safe_mode (.runs d out err rc)).spawned = true ∧
    (SystemTools.run_command command safe_mode (.runs d out err rc)).childRunning =
      true := by
  unfold SystemTools.run_command
  rw [h1]
  have hcond : (safe_mode &&
      !(SystemTools.safe_commands.contains (pyLower tok))) = false := by
    rcases h2 with h2 | h2 <;> simp [h2]
  simp only [hcond, Bool.false_eq_true, if_false]
  simp [h3]

/-- Claim C5, witness: an allow-listed command that runs for 31 seconds
times out with the child left running. -/
theorem run_command_timeout_no_kill_witness :
    firstToken "ping localhost" = some "ping" ∧
    pyLower "ping" ∈ SystemTools.safe_commands ∧
    TOOL_TIMEOUT < 31 ∧
    (SystemTools.run_command "ping localhost" true (.runs 31 "" "" 0)).result.status =
      Status.timeout ∧
    (SystemTools.run_command "ping localhost" true (.runs 31 "" "" 0)).spawned = true ∧
    (SystemTools.run_command "ping localhost" true (.runs 31 "" "" 0)).childRunning =
      true := by
  refine ⟨by decide, by decide, by decide, ?_⟩
  exact run_command_timeout_no_kill "ping localhost" true "ping" 31 "" "" 0
    (by decide) (Or.inr (by decide)) (by decide)

/-- Claim C6, counterexample: submitting an utterance on top of a
ten-turn history (the default `MAX_CONVERSATION_HISTORY`) returns a
twelve-turn history: `process_input` never consults the cap and evicts
nothing, so the claim that the retained length never exceeds the
configured maximum is false of the source. -/
theorem history_cap_exceeded_cex :
    (CognitoCoreAgent.process_input simpleStub [] 5 "hi" hist10).map
      (fun r => r.2.length) = some 12 ∧
    MAX_CONVERSATION_HISTORY < 12 := ⟨rfl, by decide⟩

/-- Claim C6, amended: `process_input` enforces no history cap: a
submission with no tool call returns the full input history plus the two
new turns, whatever the input length, and `MAX_CONVERSATION_HISTORY` is
never applied (it is defined in the configuration but used nowhere). -/
theorem no_history_cap (m : Model) (tool_map : ToolMap) (fuel : Nat)
    (u t : String) (hist : List Content)
    (hm : m 0 = ModelResp.reply [ChatPart.text t])
    (hh : textOnly hist = true) :
    (CognitoCoreAgent.process_input m tool_map (fuel + 1) u hist).map
      (fun r => r.2.length) = some (hist.length + 2) := by
  rw [process_input_no_tool_eq m tool_map fuel u t hist hm hh]
  simp

/-- Claim C6, witness: the amended statement at the ten-turn history. -/
theorem no_history_cap_witness :
    simpleStub 0 = ModelResp.reply [ChatPart.text "Sure."] ∧
    textOnly hist10 = true ∧
    (CognitoCoreAgent.process_input simpleStub [] 5 "hi" hist10).map
      (fun r => r.2.length) = some (hist10.length + 2) :=
  ⟨rfl, by decide, no_history_cap simpleStub [] 4 "hi" "Sure." hist10 rfl (by decide)⟩

/-- Claim C7, counterexample: when the backend blocks the input, the
returned history is exactly the input history — here empty — so the
rejected user utterance is NOT recorded: that part of the claim is
false of the source (the fixed user-safe message and the absence of a
synthesized assistant turn do hold). -/
theorem blocked_drops_user_turn_cex :
    CognitoCoreAgent.process_input blockedStub [] 5 "hello" [] = some (safety_msg, []) ∧
    recordsUserText [] "hello" = false := ⟨rfl, rfl⟩

/-- Claim C7, amended: if the model backend blocks the input,
`process_input` returns the fixed user-safe message together with the
history exactly as passed in: no assistant turn is synthesized from the
blocked content, and the rejected user utterance is not recorded
either. -/
theorem blocked_returns_history_unchanged (m : Model) (tool_map : ToolMap)
    (fuel : Nat) (u : String) (hist : List Content)
    (hm : m 0 = ModelResp.blockedPrompt) :
    CognitoCoreAgent.process_input m tool_map fuel u hist = some (safety_msg, hist) := by
  unfold CognitoCoreAgent.process_input
  simp [send_message, hm, handle_exc]

/-- Claim C7, witness: the amended statement at a blocked stub over a
ten-turn history. -/
theorem blocked_returns_history_unchanged_witness :
    blockedStub 0 = ModelResp.blockedPrompt ∧
    CognitoCoreAgent.process_input blockedStub [] 3 "hello" hist10 =
      some (safety_msg, hist10) :=
  ⟨rfl, blocked_returns_history_unchanged blockedStub [] 3 "hello" hist10 rfl⟩

/-- Claim C8, counterexample: when generation stops with a non-empty
partial answer, `process_input` returns that partial text — not one of
the fixed user-safe messages — and the returned history is not the
history passed in: two turns have been appended.  The claim that every
failure branch returns a fixed message with the history unchanged is
therefore false of the source. -/
theorem partial_stop_changes_history_cex :
    CognitoCoreAgent.process_input partialStub [] 3 "hi" [] =
      some ("Partial answer.",
        [{ role := "user", parts := [ChatPart.text "hi"] },
         { role := "model", parts := [ChatPart.text "Partial answer."] }]) ∧
    (CognitoCoreAgent.process_input partialStub [] 3 "hi" []).map Prod.snd ≠
      some ([] : List Content) ∧
    "Partial answer." ≠ safety_msg ∧
    "Partial answer." ≠ interrupted_msg ∧
    "Partial answer." ≠ internal_error_msg :=
  ⟨rfl, by decide, by decide, by decide, by decide⟩

/-- Claim C8, amended: `process_input` never propagates a backend
failure; the blocked, stopped-without-partial-text and unexpected
failure branches return their fixed user-safe message with the history
exactly as passed in, while the stopped-with-partial-text branch
returns the partial text and commits the user/model pair in full —
never a half-written turn. -/
theorem backend_failure_branches (m : Model) (tool_map : ToolMap) (fuel : Nat)
    (u : String) (hist : List Content) :
    (m 0 = ModelResp.blockedPrompt →
      CognitoCoreAgent.process_input m tool_map fuel u hist = some (safety_msg, hist)) ∧
    (m 0 = ModelResp.stopCandidate none →
      CognitoCoreAgent.process_input m tool_map fuel u hist =
        some (interrupted_msg, hist)) ∧
    (m 0 = ModelResp.stopCandidate (some "") →
      CognitoCoreAgent.process_input m tool_map fuel u hist =
        some (interrupted_msg, hist)) ∧
    (∀ p, m 0 = ModelResp.stopCandidate (some p) → ¬p = "" →
      CognitoCoreAgent.process_input m tool_map fuel u hist =
        some (p, hist ++ [{ role := "user", parts := [ChatPart.text u] },
                          { role := "model", parts := [ChatPart.text p] }])) ∧
    (∀ s, m 0 = ModelResp.failure s →
      CognitoCoreAgent.process_input m tool_map fuel u hist =
        some (internal_error_msg, hist)) := by
  refine ⟨fun h => ?_, fun h => ?_, fun h => ?_, fun p h hp => ?_, fun s h => ?_⟩ <;>
    simp [CognitoCoreAgent.process_input, send_message, h, handle_exc]
  exact fun h => absurd h hp

/-- Claim C8, witness: the amended statement at the partial-stop stub
over a ten-turn history. -/
theorem backend_failure_branches_witness :
    partialStub 0 = ModelResp.stopCandidate (some "Partial answer.") ∧
    CognitoCoreAgent.process_input partialStub [] 3 "hi" hist10 =
      some ("Partial answer.",
        hist10 ++ [{ role := "user", parts := [ChatPart.text "hi"] },
                   { role := "model", parts := [ChatPart.text "Partial answer."] }]) :=
  ⟨rfl, (backend_failure_branches partialStub [] 3 "hi" hist10).2.2.2.1
    "Partial answer." rfl (by decide)⟩

/-- Claim C9: a submission whose model reply contains no tool call
returns exactly two new turns appended to the history — one user turn
followed by one assistant turn, in that order — with all earlier turns
unchanged. -/
theorem no_tool_round_trip (m : Model) (tool_map : ToolMap) (fuel : Nat)
    (u t : String) (hist : List Content)
    (hm : m 0 = ModelResp.reply [ChatPart.text t])
    (hh : textOnly hist = true) :
    CognitoCoreAgent.process_input m tool_map (fuel + 1) u hist =
      some (t, hist ++ [{ role := "user", parts := [ChatPart.text u] },
                        { role := "model", parts := [ChatPart.text t] }]) :=
  process_input_no_tool_eq m tool_map fuel u t hist hm hh

/-- Claim C9, witness: a no-tool submission on top of a ten-turn
history returns it with exactly the user and assistant turns
appended. -/
theorem no_tool_round_trip_witness :
    simpleStub 0 = ModelResp.reply [ChatPart.text "Sure."] ∧
    textOnly hist10 = true ∧
    CognitoCoreAgent.process_input simpleStub [] 1 "hello" hist10 =
      some ("Sure.", hist10 ++ [{ role := "user", parts := [ChatPart.text "hello"] },
                                { role := "model", parts := [ChatPart.text "Sure."] }]) :=
  ⟨rfl, by decide, no_tool_round_trip simpleStub [] 0 "hello" "Sure." hist10 rfl (by decide)⟩

/-- Claim C10 (spec-modelled): the classifier returns an intent from the
specified enumeration (by its type) with a confidence in the closed
interval from 0 to 1 for every utterance; the Mars-rover query yields
`web_search` with confidence above the web-search threshold, and a plain
greeting yields `general_question`. -/
theorem classify_contract :
    (∀ u : String, 0 ≤ (classify u).2 ∧ (classify u).2 ≤ 1) ∧
    classify "search for the latest Mars rover news" = (Intent.web_search, 9/10) ∧
    WEB_SEARCH_THRESHOLD < (classify "search for the latest Mars rover news").2 ∧
    (classify "hello there").1 = Intent.general_question := by
  have hws : containsKeyword "search for the latest Mars rover news"
      web_search_keywords = true := by decide
  have hblank : "search for the latest Mars rover news".toList.all
      Char.isWhitespace = false := by decide
  have hmars : classify "search for the latest Mars rover news" =
      (Intent.web_search, 9/10) := by
    simp [classify, hws, hblank]
  refine ⟨?_, hmars, ?_, ?_⟩
  · intro u
    unfold classify
    split
    · norm_num
    · split
      · norm_num
      · split
        · norm_num
        · split <;> norm_num
  · rw [hmars]
    norm_num [WEB_SEARCH_THRESHOLD]
  · have h1 : containsKeyword "hello there" web_search_keywords = false := by decide
    have h2 : containsKeyword "hello there" system_command_keywords = false := by decide
    have h3 : containsKeyword "hello there" send_email_keywords = false := by decide
    have h4 : "hello there".toList.all Char.isWhitespace = false := by decide
    simp [classify, h1, h2, h3, h4]
